import Mathlib

/-!
Verification of the wavrec loopback audio recorder.

This file is a shallow embedding, into Lean, of the parts of the program
relevant to the checked properties:

- src/audio.rs : SampleFormat, AudioFormatInfo and its derived quantities;
- src/wave.rs : WaveHeader, WaveData, WaveFile serialization, WaveFile::write,
  and the buffered WaveWriter (open / write / commit / close);
- src/lib.rs : run_processing_loop, the message-processing loop driven by the
  shared run flag;
- src/audio/sys/winapi.rs : the WASAPI capture loop (chunk filling from the
  sample queue, chunk emission, and the error branch).

Bytes are modelled as natural numbers (the program never computes on the byte
values themselves).  Machine arithmetic that may overflow is modelled with an
explicit modulus (u32 as mod 2 to the 32, u16 as mod 2 to the 16).  Fallible
I/O steps that depend on the outside world (file creation and writes) are
modelled with explicit fault-injection parameters so that every error path of
the source can be exercised.
-/

namespace Wavrec

/-! ## src/audio.rs -/

/-- Audio bit depth and sample format (src/audio.rs, enum SampleFormat). -/
inductive SampleFormat where
  | Int16
  | Int24
  | Int32
  | Float32
deriving DecidableEq, Repr

/-- Bit depth for the selected sample format (src/audio.rs lines 23-30). -/
def SampleFormat.bit_depth : SampleFormat → Nat
  | .Int16 => 16
  | .Int24 => 24
  | .Int32 => 32
  | .Float32 => 32

/-- Type format header: 1 for PCM (integer), 3 for float
(src/audio.rs lines 33-38). -/
def SampleFormat.type_format_header : SampleFormat → Nat
  | .Int16 => 1
  | .Int24 => 1
  | .Int32 => 1
  | .Float32 => 3

/-- Basic info about the audio format to capture and write
(src/audio.rs, struct AudioFormatInfo).  In the source sample_rate is a u32
and num_channels a u8; here they are naturals, and the theorems carry the
machine-range bounds where they matter. -/
structure AudioFormatInfo where
  sample_rate : Nat
  num_channels : Nat
  format : SampleFormat
deriving DecidableEq, Repr

/-- Bit depth of the chosen sample format (src/audio.rs lines 64-66). -/
def AudioFormatInfo.bit_depth (f : AudioFormatInfo) : Nat :=
  f.format.bit_depth

/-- Audio type header of the chosen sample format (src/audio.rs lines 70-72). -/
def AudioFormatInfo.type_format_header (f : AudioFormatInfo) : Nat :=
  f.format.type_format_header

/-- Bytes per second (src/audio.rs lines 76-78).  The source computes
(sample_rate * bit_depth as u32 * num_channels as u32) / 8 entirely in u32,
so each multiplication wraps modulo 2 to the 32. -/
def AudioFormatInfo.bytes_per_second (f : AudioFormatInfo) : Nat :=
  (f.sample_rate * f.bit_depth % 4294967296 * f.num_channels) % 4294967296 / 8

/-- Block alignment (src/audio.rs lines 83-85).  The source computes
(bit_depth as u16 * num_channels as u16) / 8 in u16, wrapping modulo
2 to the 16. -/
def AudioFormatInfo.block_alignment (f : AudioFormatInfo) : Nat :=
  f.bit_depth * f.num_channels % 65536 / 8

/-! ## src/wave.rs : serialization -/

/-- Little-endian encoding of a u16 value as two bytes
(u16 to_le_bytes in the source). -/
def le16 (n : Nat) : List Nat :=
  [n % 256, n / 256 % 256]

/-- Little-endian encoding of a u32 value as four bytes
(u32 to_le_bytes in the source). -/
def le32 (n : Nat) : List Nat :=
  [n % 256, n / 256 % 256, n / 65536 % 256, n / 16777216 % 256]

/-- The ASCII bytes of the RIFF marker. -/
def riffMarker : List Nat := [82, 73, 70, 70]

/-- The ASCII bytes of the WAVE marker. -/
def waveMarker : List Nat := [87, 65, 86, 69]

/-- The ASCII bytes of the fmt marker (note the trailing space). -/
def fmtMarker : List Nat := [102, 109, 116, 32]

/-- The ASCII bytes of the data marker. -/
def dataMarker : List Nat := [100, 97, 116, 97]

/-- BYTES_IN_HEADER (src/wave.rs line 59). -/
def WaveHeader.BYTES_IN_HEADER : Nat := 44

/-- The serialized 36-byte WAV header record: WaveHeader::create composed with
WaveHeader::as_bytes (src/wave.rs lines 62-90 and 93-107).  The file size
field is (data_size + (44 - 8)) cast to u32, hence taken modulo 2 to the 32;
the remaining casts (u8 to u16 for the channel count and bit depth) are exact
for in-range source values, and the le16 and le32 encoders truncate exactly as
the casts do. -/
def WaveHeader.bytes (format : AudioFormatInfo) (data_size : Nat) : List Nat :=
  riffMarker
    ++ le32 ((data_size + (WaveHeader.BYTES_IN_HEADER - 8)) % 4294967296)
    ++ waveMarker
    ++ fmtMarker
    ++ le32 16
    ++ le16 format.type_format_header
    ++ le16 format.num_channels
    ++ le32 format.sample_rate
    ++ le32 format.bytes_per_second
    ++ le16 format.block_alignment
    ++ le16 format.bit_depth

/-- The serialized data record: WaveData::create composed with
WaveData::as_bytes (src/wave.rs lines 119-128 and 130-136).  The size field
is the payload length cast to u32. -/
def WaveData.bytes (data : List Nat) : List Nat :=
  dataMarker ++ le32 (data.length % 4294967296) ++ data

/-- The full serialized WAV file: WaveFile::create (src/wave.rs lines 148-153)
followed by serializing header then data, the byte stream that
WaveFile::write emits. -/
def WaveFile.bytes (data : List Nat) (format : AudioFormatInfo) : List Nat :=
  WaveHeader.bytes format data.length ++ WaveData.bytes data

/-! ## src/wave.rs : WaveFile::write -/

/-- Fault-injection environment for the three fallible steps of
WaveFile::write (src/wave.rs lines 156-164): File::create, the write_all of
the header bytes, and the write_all of the data bytes.  A false flag makes
the corresponding step fail. -/
structure WriteEnv where
  createOk : Bool
  headerOk : Bool
  dataOk : Bool
deriving DecidableEq, Repr

/-- WaveFile::write (src/wave.rs lines 156-164).  The source opens the
destination with File::create (which creates or truncates the file) and then
issues two write_all calls, propagating any error with the question-mark
operator.  The result is the returned value paired with the destination file
contents afterwards: none when no file was created, otherwise the bytes the
file holds.  Each write_all is modelled as atomic (all bytes or none); even
so, a failure between the two calls leaves a partial file. -/
def WaveFile.write (data : List Nat) (format : AudioFormatInfo)
    (env : WriteEnv) : Except Unit Unit × Option (List Nat) :=
  if env.createOk = false then
    (.error (), none)
  else if env.headerOk = false then
    (.error (), some [])
  else if env.dataOk = false then
    (.error (), some (WaveHeader.bytes format data.length))
  else
    (.ok (), some (WaveFile.bytes data format))

/-! ## src/wave.rs : WaveWriter -/

/-- The buffered WaveWriter (src/wave.rs, struct WaveWriter).  buffer is the
in-memory content of the BufWriter not yet flushed to the scratch file;
tmpFile is the scratch file content on disk; bytes_written tracks the field
of the same name.  writeFaults is a fault-injection stream for the underlying
BufWriter write call: the head flag decides whether the next write fails
(the writer fields of the source carry file handles instead; the fault stream
stands in for the outside world). -/
structure WaveWriter where
  buffer : List Nat
  tmpFile : List Nat
  bytes_written : Nat
  audio_format_info : AudioFormatInfo
  writeFaults : List Bool
deriving DecidableEq, Repr

/-- WaveWriter::open (src/wave.rs lines 184-204) on its success path: a fresh
empty scratch file, zero bytes written, the given format remembered.  The
fault stream is empty, meaning no injected write failures. -/
def WaveWriter.open (format : AudioFormatInfo) : WaveWriter :=
  { buffer := [], tmpFile := [], bytes_written := 0,
    audio_format_info := format, writeFaults := [] }

/-- WaveWriter::write (src/wave.rs lines 207-210): appends the chunk to the
buffered writer and adds the byte count to bytes_written, or fails, returning
the error and leaving the buffered data unchanged.  The head of the fault
stream selects the outcome and is consumed either way. -/
def WaveWriter.write (w : WaveWriter) (data : List Nat) :
    WaveWriter × Except Unit Unit :=
  if w.writeFaults.headD false then
    ({ w with writeFaults := w.writeFaults.tail }, .error ())
  else
    ({ w with writeFaults := w.writeFaults.tail,
              buffer := w.buffer ++ data,
              bytes_written := w.bytes_written + data.length }, .ok ())

/-- WaveWriter::commit (src/wave.rs lines 213-222) on its success path:
flush moves the buffered bytes to the scratch file, read_to_end reads the
whole scratch file back, and the WaveFile built from that payload and the
stored format is serialized to the destination.  Returns the updated writer
and the destination file bytes. -/
def WaveWriter.commit (w : WaveWriter) : WaveWriter × List Nat :=
  let flushed := w.tmpFile ++ w.buffer
  ({ w with tmpFile := flushed, buffer := [] },
   WaveFile.bytes flushed w.audio_format_info)

/-! ## src/lib.rs : the processing loop -/

/-- The message type sent from the capture thread to the processing loop.
Modelled from the spec: the CaptureMessage sum type of section 3 of the spec,
Data(Chunk) or Error(cause) — the enum named AudioDataMessage is used
throughout src/lib.rs and src/audio/sys/winapi.rs but its declaration is not
among the source files.  The cause is reduced to a numeric code; no code path
inspects it. -/
inductive AudioDataMessage where
  | AudioData (chunk : List Nat)
  | Error (cause : Nat)
deriving DecidableEq, Repr

/-- True exactly on Error messages. -/
def AudioDataMessage.isError : AudioDataMessage → Bool
  | .AudioData _ => false
  | .Error _ => true

/-- The while loop of run_processing_loop (src/lib.rs lines 123-132).  The
input list is the sequence of try_recv outcomes the channel yields, none
standing for the non-blocking nothing-available result; the list ending
stands for the moment the external stop signal is observed.  Each iteration
first checks the run flag.  An AudioData chunk is written, and the result of
the write is discarded by the let-underscore binding, exactly as in the
source; an Error message logs and clears the run flag.  Returns the final
writer state and run flag. -/
def processMessages :
    List (Option AudioDataMessage) → WaveWriter → Bool → WaveWriter × Bool
  | [], w, running => (w, running)
  | poll :: rest, w, running =>
    if running then
      match poll with
      | none => processMessages rest w running
      | some (.AudioData c) => processMessages rest (w.write c).1 running
      | some (.Error _) => processMessages rest w false
    else
      (w, running)

/-- Observable outcome of one run of run_processing_loop. -/
structure RunOutcome where
  result : Except Unit Unit
  dest : Option (List Nat)
  closeCalled : Bool
  finalRunning : Bool
deriving Repr

/-- run_processing_loop (src/lib.rs lines 114-137) after the writer has been
opened: the polling loop, then commit followed by close, each guarded by the
question-mark operator.  commitFails injects a commit failure (flush, reopen,
read or destination write failing inside commit); in that case the error
propagates out of the function immediately and close is never reached.  On
the success path the committed destination bytes are recorded and close runs.
-/
def run_processing_loop (polls : List (Option AudioDataMessage))
    (w0 : WaveWriter) (commitFails : Bool) : RunOutcome :=
  let (w, running) := processMessages polls w0 true
  if commitFails then
    { result := .error (), dest := none, closeCalled := false,
                finalRunning := running }
  else
    { result := .ok (), dest := some (w.commit).2, closeCalled := true,
                finalRunning := running }

/-! ## src/audio/sys/winapi.rs : the capture loop -/

/-- The chunk size in frames fixed by WasapiLoopbackRecorder::create
(src/audio/sys/winapi.rs line 115). -/
def chunk_size : Nat := 4096

/-- The for loop filling one chunk (src/audio/sys/winapi.rs lines 146-160):
n elements are popped from the front of the sample queue into the chunk.  If
every pop returns Some, the filled chunk and the remaining queue result; if
any pop returns None the fill fails. -/
def fillChunk : Nat → List Nat → Option (List Nat × List Nat)
  | 0, q => some ([], q)
  | _ + 1, [] => none
  | n + 1, v :: q =>
    match fillChunk n q with
    | some (c, rest) => some (v :: c, rest)
    | none => none

/-- Observable outcome of part of the capture loop: the messages sent on the
channel, the remaining sample queue, whether stop_stream was called, and
whether the break out of the capture loop labelled block was taken through
the error branch. -/
structure CaptureStep where
  msgs : List AudioDataMessage
  queue : List Nat
  stopped : Bool
  broke : Bool
deriving DecidableEq, Repr

/-- One body of the inner while loop (src/audio/sys/winapi.rs lines 145-162):
fill a chunk of bytes bytes from the queue and send it as AudioData, or —
when a pop returns None — send exactly one Error message, stop the stream and
break out of the capture loop.  On the error branch the pops have already
drained the whole queue. -/
def captureChunkStep (bytes : Nat) (q : List Nat) : CaptureStep :=
  match fillChunk bytes q with
  | some (c, rest) =>
    { msgs := [.AudioData c], queue := rest, stopped := false, broke := false }
  | none =>
    { msgs := [.Error 0], queue := [], stopped := true, broke := true }

/-- The inner while loop (src/audio/sys/winapi.rs lines 144-163): as long as
the queue holds strictly more than bytes bytes, run one chunk step; a step
that broke ends the loop (and the whole capture loop) at once.  The source
loop has no fuel; the fuel argument only forces termination in Lean, and
every theorem below quantifies over it. -/
def drainQueue (bytes : Nat) : Nat → List Nat → CaptureStep
  | 0, q => { msgs := [], queue := q, stopped := false, broke := false }
  | fuel + 1, q =>
    if bytes < q.length then
      let s := captureChunkStep bytes q
      if s.broke then
        s
      else
        let t := drainQueue bytes fuel s.queue
        { msgs := s.msgs ++ t.msgs, queue := t.queue,
                  stopped := t.stopped, broke := t.broke }
    else
      { msgs := [], queue := q, stopped := false, broke := false }

/-- The outer capture loop (src/audio/sys/winapi.rs lines 143-171).
deliveries is the sequence of byte groups read_from_device_to_deque appends
to the queue, one per outer iteration; when they are exhausted
wait_for_event times out, so the stream is stopped and the loop breaks.
Device reads and channel sends themselves are assumed to succeed (their
failures propagate by the question-mark operator without touching the
channel). -/
def captureRun (bytes : Nat) (fuel : Nat) :
    List (List Nat) → List Nat → CaptureStep
  | [], q =>
    let s := drainQueue bytes fuel q
    if s.broke then s else { s with stopped := true }
  | d :: ds, q =>
    let s := drainQueue bytes fuel q
    if s.broke then
      s
    else
      let t := captureRun bytes fuel ds (s.queue ++ d)
      { msgs := s.msgs ++ t.msgs, queue := t.queue,
                stopped := t.stopped, broke := t.broke }

/-- WasapiLoopbackRecorder::capture (src/audio/sys/winapi.rs lines 129-173):
the sample queue starts empty and the inner loop works in units of
block_align * chunk_size bytes. -/
def capture (blockAlign : Nat) (fuel : Nat)
    (deliveries : List (List Nat)) : CaptureStep :=
  captureRun (blockAlign * chunk_size) fuel deliveries []

/-- The canonical test format of the spec: 44100 Hz, stereo, 16-bit integer. -/
def exampleFormat : AudioFormatInfo :=
  { sample_rate := 44100, num_channels := 2, format := .Int16 }

/-! ## Helper lemmas -/

/-- The four-byte little-endian encoder only sees a value modulo 2 to the 32,
so the u32 cast before encoding changes nothing. -/
theorem le32_mod (n : Nat) : le32 (n % 4294967296) = le32 n := by
  simp only [le32, List.cons.injEq, and_true]
  omega

/-- The serialized header record is 36 bytes long. -/
theorem waveHeader_bytes_length (format : AudioFormatInfo) (n : Nat) :
    (WaveHeader.bytes format n).length = 36 := rfl

/-- The serialized WAV file is 44 bytes of header plus the payload. -/
theorem waveFile_bytes_length (data : List Nat) (format : AudioFormatInfo) :
    (WaveFile.bytes data format).length = 44 + data.length := by
  show data.length + 44 = 44 + data.length
  omega

/-- The payload sits unmodified after the first 44 bytes. -/
theorem waveFile_bytes_drop_44 (data : List Nat) (format : AudioFormatInfo) :
    (WaveFile.bytes data format).drop 44 = data := rfl

/-- The first 36 bytes of the serialized WAV file are the header record. -/
theorem waveFile_bytes_take_36 (data : List Nat) (format : AudioFormatInfo) :
    (WaveFile.bytes data format).take 36 = WaveHeader.bytes format data.length := by
  have h := List.take_left (WaveHeader.bytes format data.length) (WaveData.bytes data)
  rwa [waveHeader_bytes_length] at h

/-! ## Claims -/

set_option maxHeartbeats 4000000 in
/-- C1: For every payload byte sequence p and every valid audio format
(sample_rate > 0, num_channels > 0), the serialized WAV file produced by
WaveFile::create(p, format) is exactly 44 + len(p) bytes: a 44-byte
little-endian header consisting of RIFF, file_size = len(p) + 36, WAVE,
fmt-space, chunk_size 16, type_code (1 for integer encodings, 3 for float),
channel count, sample rate, bytes_per_second, block_alignment and bit_depth,
then data and size_in_bytes = len(p), followed by the bytes of p unmodified
starting at byte offset 44. -/
theorem claim_C1_serialized_layout (p : List Nat) (format : AudioFormatInfo)
    (hsr : 0 < format.sample_rate) (hnc : 0 < format.num_channels) :
    (WaveFile.bytes p format).length = 44 + p.length
    ∧ (WaveFile.bytes p format).take 4 = riffMarker
    ∧ ((WaveFile.bytes p format).drop 4).take 4 = le32 (p.length + 36)
    ∧ ((WaveFile.bytes p format).drop 8).take 4 = waveMarker
    ∧ ((WaveFile.bytes p format).drop 12).take 4 = fmtMarker
    ∧ ((WaveFile.bytes p format).drop 16).take 4 = le32 16
    ∧ ((WaveFile.bytes p format).drop 20).take 2
        = le16 (if format.format = SampleFormat.Float32 then 3 else 1)
    ∧ ((WaveFile.bytes p format).drop 22).take 2 = le16 format.num_channels
    ∧ ((WaveFile.bytes p format).drop 24).take 4 = le32 format.sample_rate
    ∧ ((WaveFile.bytes p format).drop 28).take 4 = le32 format.bytes_per_second
    ∧ ((WaveFile.bytes p format).drop 32).take 2 = le16 format.block_alignment
    ∧ ((WaveFile.bytes p format).drop 34).take 2 = le16 format.bit_depth
    ∧ ((WaveFile.bytes p format).drop 36).take 4 = dataMarker
    ∧ ((WaveFile.bytes p format).drop 40).take 4 = le32 p.length
    ∧ (WaveFile.bytes p format).drop 44 = p := by
  refine ⟨waveFile_bytes_length p format, rfl, ?_, rfl, rfl, rfl, ?_, rfl, rfl,
    rfl, rfl, rfl, rfl, ?_, rfl⟩
  · show le32 ((p.length + 36) % 4294967296) = le32 (p.length + 36)
    exact le32_mod (p.length + 36)
  · rcases format with ⟨sr, nc, sf⟩
    cases sf <;> rfl
  · show le32 (p.length % 4294967296) = le32 p.length
    exact le32_mod p.length

/-- Witness for C1 at format 44100 Hz / 2 channels / Int16 and a four-byte
payload. -/
theorem claim_C1_witness :
    (WaveFile.bytes [1, 2, 3, 4] exampleFormat).length = 44 + 4
    ∧ (WaveFile.bytes [1, 2, 3, 4] exampleFormat).drop 44 = [1, 2, 3, 4] :=
  ⟨(claim_C1_serialized_layout [1, 2, 3, 4] exampleFormat (by decide)
      (by decide)).1,
   (claim_C1_serialized_layout [1, 2, 3, 4] exampleFormat (by decide)
      (by decide)).2.2.2.2.2.2.2.2.2.2.2.2.2.2⟩

/-- A message is either an Error or an AudioData chunk of exactly the given
byte length. -/
def chunkSizedOk (bytes : Nat) : AudioDataMessage → Bool
  | .AudioData c => c.length == bytes
  | .Error _ => true

/-- Filling a chunk succeeds exactly on the queue prefix when the queue is
long enough. -/
theorem fillChunk_eq_of_le (n : Nat) :
    ∀ q : List Nat, n ≤ q.length → fillChunk n q = some (q.take n, q.drop n) := by
  induction n with
  | zero => intro q _; simp [fillChunk]
  | succ n ih =>
    intro q h
    cases q with
    | nil => simp at h
    | cons v q =>
      have hn : n ≤ q.length := by simpa using h
      simp [fillChunk, ih q hn]

/-- A successfully filled chunk has exactly the requested length. -/
theorem fillChunk_some_length (n : Nat) :
    ∀ (q c r : _), fillChunk n q = some (c, r) → c.length = n := by
  induction n with
  | zero =>
    intro q c r h
    simp only [fillChunk, Option.some.injEq, Prod.mk.injEq] at h
    rw [← h.1]
    rfl
  | succ n ih =>
    intro q c r h
    cases q with
    | nil => simp [fillChunk] at h
    | cons v q =>
      rw [fillChunk] at h
      cases hf : fillChunk n q with
      | none => rw [hf] at h; simp at h
      | some cr =>
        obtain ⟨c0, r0⟩ := cr
        rw [hf] at h
        simp only [Option.some.injEq, Prod.mk.injEq] at h
        rw [← h.1]
        simp [ih q c0 r0 hf]

/-- The inner while loop never takes the error branch: whenever a chunk step
runs, the guard has ensured the queue is long enough. -/
theorem drainQueue_broke_false (bytes : Nat) :
    ∀ (fuel : Nat) (q : List Nat), (drainQueue bytes fuel q).broke = false := by
  intro fuel
  induction fuel with
  | zero => intro q; rfl
  | succ fuel ih =>
    intro q
    rw [drainQueue]
    by_cases h : bytes < q.length
    · have hs : fillChunk bytes q = some (q.take bytes, q.drop bytes) :=
        fillChunk_eq_of_le bytes q (Nat.le_of_lt h)
      simp [captureChunkStep, hs, ih, h]
    · simp [h]

/-- Every chunk the inner while loop emits has exactly the block size. -/
theorem drainQueue_msgs_sized (bytes : Nat) :
    ∀ (fuel : Nat) (q : List Nat),
      ((drainQueue bytes fuel q).msgs.all (chunkSizedOk bytes)) = true := by
  intro fuel
  induction fuel with
  | zero => intro q; rfl
  | succ fuel ih =>
    intro q
    rw [drainQueue]
    by_cases h : bytes < q.length
    · have hs : fillChunk bytes q = some (q.take bytes, q.drop bytes) :=
        fillChunk_eq_of_le bytes q (Nat.le_of_lt h)
      have hlen : (q.take bytes).length = bytes := by
        simp [List.length_take, Nat.min_eq_left (Nat.le_of_lt h)]
      simpa [captureChunkStep, hs, h, chunkSizedOk, hlen] using
        ih (List.drop bytes q)
    · simp [h]

/-- The whole capture loop never takes the error branch. -/
theorem captureRun_broke_false (bytes fuel : Nat) :
    ∀ (ds : List (List Nat)) (q : List Nat),
      (captureRun bytes fuel ds q).broke = false := by
  intro ds
  induction ds with
  | nil =>
    intro q
    simp [captureRun, drainQueue_broke_false]
  | cons d ds ih =>
    intro q
    simp [captureRun, drainQueue_broke_false, ih]

/-- Every chunk the whole capture loop emits has exactly the block size. -/
theorem captureRun_msgs_sized (bytes fuel : Nat) :
    ∀ (ds : List (List Nat)) (q : List Nat),
      ((captureRun bytes fuel ds q).msgs.all (chunkSizedOk bytes)) = true := by
  intro ds
  induction ds with
  | nil =>
    intro q
    simp [captureRun, drainQueue_broke_false, drainQueue_msgs_sized]
  | cons d ds ih =>
    intro q
    simp [captureRun, drainQueue_broke_false, drainQueue_msgs_sized, ih]

/-- C9: Every CaptureMessage::AudioData chunk emitted by the capture loop has
a byte length that is a multiple of the negotiated block alignment; in the
code, every emitted chunk is exactly block_align * chunk_size bytes with
chunk_size = 4096. -/
theorem claim_C9_chunk_alignment (blockAlign fuel : Nat)
    (deliveries : List (List Nat)) :
    ((capture blockAlign fuel deliveries).msgs.all
        (chunkSizedOk (blockAlign * chunk_size))) = true
    ∧ blockAlign ∣ blockAlign * chunk_size
    ∧ chunk_size = 4096 :=
  ⟨captureRun_msgs_sized (blockAlign * chunk_size) fuel deliveries [],
   ⟨chunk_size, rfl⟩, rfl⟩

/-- C10: The error branch of the chunk-filling loop (send a
CaptureMessage::Error, stop the stream, break out of the capture loop) is
unreachable: the while-guard, requiring the queue to be strictly longer than
block_align * chunk_size bytes, guarantees that all pops performed for one
chunk succeed, so no run of the loop ever takes the branch. -/
theorem claim_C10_error_branch_unreachable (bytes : Nat) :
    (∀ q : List Nat, bytes < q.length → (fillChunk bytes q).isSome = true)
    ∧ (∀ fuel q, (drainQueue bytes fuel q).broke = false)
    ∧ (∀ fuel ds q, (captureRun bytes fuel ds q).broke = false) := by
  refine ⟨?_, fun fuel q => drainQueue_broke_false bytes fuel q,
    fun fuel ds q => captureRun_broke_false bytes fuel ds q⟩
  intro q h
  rw [fillChunk_eq_of_le bytes q (Nat.le_of_lt h)]
  rfl

/-- Witness for C10 with block size 2 and a queue of three bytes. -/
theorem claim_C10_witness :
    (fillChunk 2 [5, 6, 7]).isSome = true
    ∧ (drainQueue 2 9 [5, 6, 7]).broke = false
    ∧ (captureRun 2 9 [[5]] [6, 7]).broke = false :=
  ⟨(claim_C10_error_branch_unreachable 2).1 [5, 6, 7] (by decide),
   (claim_C10_error_branch_unreachable 2).2.1 9 [5, 6, 7],
   (claim_C10_error_branch_unreachable 2).2.2 9 [[5]] [6, 7]⟩

/-- Outcome of the capture loop when the device read itself may fail: the
value returned by capture() together with the observable effects. -/
structure CaptureResult where
  result : Except Unit Unit
  msgs : List AudioDataMessage
  queue : List Nat
  stopped : Bool
  broke : Bool
deriving Repr

/-- The outer capture loop with the fallible device read made explicit
(src/audio/sys/winapi.rs lines 143-172).  Each outer iteration drains the
queue, then performs read_from_device_to_deque: a some delivery appends the
read bytes, while none models a failing read, whose error the
question-mark operator at line 165 propagates straight out of capture() —
no message is sent on the channel and stop_stream is not called on that
path.  As in captureRun, exhausting the deliveries stands for
wait_for_event timing out (stop_stream, break, then the final Ok), and the
error branch of the inner loop also breaks out to the final Ok. -/
def captureRunFallible (bytes fuel : Nat) :
    List (Option (List Nat)) → List Nat → CaptureResult
  | [], q =>
    let s := drainQueue bytes fuel q
    if s.broke then
      { result := .ok (), msgs := s.msgs, queue := s.queue,
                  stopped := s.stopped, broke := s.broke }
    else
      { result := .ok (), msgs := s.msgs, queue := s.queue,
                  stopped := true, broke := s.broke }
  | d :: ds, q =>
    let s := drainQueue bytes fuel q
    if s.broke then
      { result := .ok (), msgs := s.msgs, queue := s.queue,
                  stopped := s.stopped, broke := s.broke }
    else
      match d with
      | none =>
        { result := .error (), msgs := s.msgs, queue := s.queue,
                    stopped := s.stopped, broke := s.broke }
      | some dd =>
        let t := captureRunFallible bytes fuel ds (s.queue ++ dd)
        { result := t.result, msgs := s.msgs ++ t.msgs, queue := t.queue,
                    stopped := t.stopped, broke := t.broke }

/-- The inner while loop never calls stop_stream: the only stop in it sits
on the unreachable error branch. -/
theorem drainQueue_stopped_false (bytes : Nat) :
    ∀ (fuel : Nat) (q : List Nat), (drainQueue bytes fuel q).stopped = false := by
  intro fuel
  induction fuel with
  | zero => intro q; rfl
  | succ fuel ih =>
    intro q
    rw [drainQueue]
    by_cases h : bytes < q.length
    · have hs : fillChunk bytes q = some (q.take bytes, q.drop bytes) :=
        fillChunk_eq_of_le bytes q (Nat.le_of_lt h)
      simp [captureChunkStep, hs, ih, h]
    · simp [h]

/-- The inner while loop emits no Error message. -/
theorem drainQueue_msgs_no_error (bytes : Nat) :
    ∀ (fuel : Nat) (q : List Nat),
      ((drainQueue bytes fuel q).msgs.countP
        (fun m => AudioDataMessage.isError m)) = 0 := by
  intro fuel
  induction fuel with
  | zero => intro q; rfl
  | succ fuel ih =>
    intro q
    rw [drainQueue]
    by_cases h : bytes < q.length
    · have hs : fillChunk bytes q = some (q.take bytes, q.drop bytes) :=
        fillChunk_eq_of_le bytes q (Nat.le_of_lt h)
      simpa [captureChunkStep, hs, h, AudioDataMessage.isError] using
        ih (List.drop bytes q)
    · simp [h]

/-- When every device read succeeds, the fallible capture loop returns Ok
and behaves exactly like captureRun. -/
theorem captureRunFallible_agrees (bytes fuel : Nat) :
    ∀ (ds : List (List Nat)) (q : List Nat),
      (captureRunFallible bytes fuel (ds.map some) q).result = .ok ()
      ∧ (captureRunFallible bytes fuel (ds.map some) q).msgs
          = (captureRun bytes fuel ds q).msgs
      ∧ (captureRunFallible bytes fuel (ds.map some) q).stopped
          = (captureRun bytes fuel ds q).stopped := by
  intro ds
  induction ds with
  | nil =>
    intro q
    simp [captureRunFallible, captureRun, drainQueue_broke_false]
  | cons d ds ih =>
    intro q
    simp [captureRunFallible, captureRun, drainQueue_broke_false, ih]

/-- C6 counterexample: a failing device read (the none delivery) after one
chunk has been forwarded makes capture() return an error with no
CaptureMessage::Error ever sent and without stopping the device stream —
refuting the claim that a failing device read emits exactly one Error and
stops the stream. -/
theorem claim_C6_counterexample :
    (captureRunFallible 2 9 [some [1, 2, 3], none] []).result = .error ()
    ∧ ((captureRunFallible 2 9 [some [1, 2, 3], none] []).msgs.countP
        (fun m => AudioDataMessage.isError m)) = 0
    ∧ (captureRunFallible 2 9 [some [1, 2, 3], none] []).msgs
        = [AudioDataMessage.AudioData [1, 2]]
    ∧ (captureRunFallible 2 9 [some [1, 2, 3], none] []).stopped = false :=
  ⟨rfl, rfl, rfl, rfl⟩

/-- C6 (amended): when the device read read_from_device_to_deque fails
during capture(), the error propagates out of capture() through the
question-mark operator: no CaptureMessage::Error is emitted on the channel
(only the AudioData chunks already drained), the device stream is not
stopped, and capture() returns an Err — whatever successful reads preceded
the failure.  The emit-exactly-one-Error, stop-the-stream, break-and-return
behaviour the original claim describes exists only on the branch where a
pop from the sample queue returns None, which no capture run reaches. -/
theorem claim_C6_device_read_error_silent (bytes fuel : Nat) :
    (∀ (pre : List (List Nat)) (rest : List (Option (List Nat)))
        (q : List Nat),
        (captureRunFallible bytes fuel (pre.map some ++ none :: rest) q).result
          = .error ()
        ∧ ((captureRunFallible bytes fuel (pre.map some ++ none :: rest)
              q).msgs.countP (fun m => AudioDataMessage.isError m)) = 0
        ∧ (captureRunFallible bytes fuel (pre.map some ++ none :: rest)
            q).stopped = false
        ∧ (captureRunFallible bytes fuel (pre.map some ++ none :: rest)
            q).broke = false)
    ∧ (∀ q : List Nat, fillChunk bytes q = none →
        (captureChunkStep bytes q).msgs = [AudioDataMessage.Error 0]
        ∧ ((captureChunkStep bytes q).msgs.countP
            (fun m => AudioDataMessage.isError m)) = 1
        ∧ (captureChunkStep bytes q).stopped = true
        ∧ (captureChunkStep bytes q).broke = true) := by
  constructor
  · intro pre
    induction pre with
    | nil =>
      intro rest q
      simp [captureRunFallible, drainQueue_broke_false,
        drainQueue_msgs_no_error, drainQueue_stopped_false]
    | cons p pre ih =>
      intro rest q
      simp [captureRunFallible, drainQueue_broke_false,
        drainQueue_msgs_no_error, ih]
  · intro q h
    simp [captureChunkStep, h, AudioDataMessage.isError, List.countP,
      List.countP.go]

/-- Witness for C6 (amended): a concrete failing device read and a concrete
failing pop. -/
theorem claim_C6_witness :
    ((captureRunFallible 3 9 [none] [1]).result = .error ()
      ∧ ((captureRunFallible 3 9 [none] [1]).msgs.countP
          (fun m => AudioDataMessage.isError m)) = 0
      ∧ (captureRunFallible 3 9 [none] [1]).stopped = false
      ∧ (captureRunFallible 3 9 [none] [1]).broke = false)
    ∧ ((captureChunkStep 3 [1]).msgs = [AudioDataMessage.Error 0]
      ∧ ((captureChunkStep 3 [1]).msgs.countP
          (fun m => AudioDataMessage.isError m)) = 1
      ∧ (captureChunkStep 3 [1]).stopped = true
      ∧ (captureChunkStep 3 [1]).broke = true) :=
  ⟨(claim_C6_device_read_error_silent 3 9).1 [] [] [1],
   (claim_C6_device_read_error_silent 3 9).2 [1] rfl⟩

/-- Once the run flag is false, the processing loop consumes nothing more. -/
theorem processMessages_not_running (polls : List (Option AudioDataMessage)) :
    ∀ w : WaveWriter, processMessages polls w false = (w, false) := by
  cases polls <;> intro w <;> rfl

/-- Processing a concatenation of poll sequences processes the first part and
continues from its resulting state. -/
theorem processMessages_append (xs : List (Option AudioDataMessage)) :
    ∀ (ys : List (Option AudioDataMessage)) (w : WaveWriter) (running : Bool),
      processMessages (xs ++ ys) w running
        = processMessages ys (processMessages xs w running).1
            (processMessages xs w running).2 := by
  induction xs with
  | nil => intro ys w running; rfl
  | cons x xs ih =>
    intro ys w running
    cases running with
    | false => simp [processMessages_not_running]
    | true =>
      rw [List.cons_append]
      cases x with
      | none => simpa [processMessages] using ih ys w true
      | some m =>
        cases m with
        | AudioData c => simpa [processMessages] using ih ys (w.write c).1 true
        | Error e => simpa [processMessages] using ih ys w false

/-- With no injected write faults, processing a run of AudioData messages
stages the concatenation of the chunks and leaves the run flag set. -/
theorem processMessages_data (chunks : List (List Nat)) :
    ∀ w : WaveWriter, w.writeFaults = [] →
      processMessages (chunks.map fun c => some (AudioDataMessage.AudioData c))
          w true
        = ({ w with buffer := w.buffer ++ chunks.flatten,
                    bytes_written := w.bytes_written + chunks.flatten.length },
           true) := by
  induction chunks with
  | nil => intro w hw; simp [processMessages]
  | cons c cs ih =>
    intro w hw
    rw [List.map_cons]
    have hwrite : (w.write c).1
        = { w with writeFaults := w.writeFaults.tail,
                   buffer := w.buffer ++ c,
                   bytes_written := w.bytes_written + c.length } := by
      simp [WaveWriter.write, hw]
    have hstep : processMessages
        (some (AudioDataMessage.AudioData c)
          :: cs.map fun d => some (AudioDataMessage.AudioData d)) w true
        = processMessages (cs.map fun d => some (AudioDataMessage.AudioData d))
            (w.write c).1 true := rfl
    rw [hstep, hwrite, ih _ (by simp [hw])]
    simp [hw, List.append_assoc, Nat.add_assoc]

/-- An Error message clears the run flag, after which nothing further is
consumed. -/
theorem processMessages_error (cause : Nat)
    (rest : List (Option AudioDataMessage)) (w : WaveWriter) :
    processMessages (some (AudioDataMessage.Error cause) :: rest) w true
      = (w, false) :=
  processMessages_not_running rest w

/-- Processing a run of AudioData messages followed by anything else: the
chunks are staged, then processing continues with the flag still set. -/
theorem processMessages_data_then (chunks : List (List Nat))
    (ys : List (Option AudioDataMessage)) (w : WaveWriter)
    (hw : w.writeFaults = []) :
    processMessages
        ((chunks.map fun c => some (AudioDataMessage.AudioData c)) ++ ys) w true
      = processMessages ys
          { w with buffer := w.buffer ++ chunks.flatten,
                   bytes_written := w.bytes_written + chunks.flatten.length }
          true := by
  rw [processMessages_append, processMessages_data chunks w hw]

/-- The poll sequence of the C2 failure scenario: a run of AudioData chunks,
then one Error message, then arbitrary further polls. -/
def errorPolls (chunks : List (List Nat)) (cause : Nat)
    (rest : List (Option AudioDataMessage)) : List (Option AudioDataMessage) :=
  (chunks.map fun c => some (AudioDataMessage.AudioData c))
    ++ some (AudioDataMessage.Error cause) :: rest

/-- C2: If the processing loop receives a CaptureMessage::Error after some
bytes have already been staged, it stops the session (clears the run flag)
but still commits exactly the already-staged bytes to the destination as a
valid WAV file rather than discarding them; nothing after the Error is
consumed, and the committed file carries the staged bytes at offset 44. -/
theorem claim_C2_error_commits_staged (chunks : List (List Nat)) (cause : Nat)
    (rest : List (Option AudioDataMessage)) (format : AudioFormatInfo) :
    (run_processing_loop (errorPolls chunks cause rest)
        (WaveWriter.open format) false).finalRunning = false
    ∧ (run_processing_loop (errorPolls chunks cause rest)
        (WaveWriter.open format) false).dest
        = some (WaveFile.bytes chunks.flatten format)
    ∧ (run_processing_loop (errorPolls chunks cause rest)
        (WaveWriter.open format) false).result = .ok ()
    ∧ (run_processing_loop (errorPolls chunks cause rest)
        (WaveWriter.open format) false).closeCalled = true
    ∧ (WaveFile.bytes chunks.flatten format).drop 44 = chunks.flatten := by
  have herr : processMessages (errorPolls chunks cause rest)
      ({ buffer := [], tmpFile := [], bytes_written := 0,
         audio_format_info := format, writeFaults := [] } : WaveWriter) true
      = ({ buffer := chunks.flatten, tmpFile := [],
           bytes_written := chunks.flatten.length,
           audio_format_info := format, writeFaults := [] }, false) := by
    rw [errorPolls, processMessages_data_then chunks _ _ rfl,
      processMessages_error]
    simp
  refine ⟨?_, ?_, ?_, ?_, waveFile_bytes_drop_44 chunks.flatten format⟩ <;>
    simp [run_processing_loop, WaveWriter.open, herr, WaveWriter.commit]

/-- C3 counterexample: when commit() fails, run_processing_loop propagates
the error with the question-mark operator and returns before ever calling
close(), contradicting the claim that close() runs on every code path. -/
theorem claim_C3_counterexample :
    (run_processing_loop [] (WaveWriter.open exampleFormat) true).result
      = .error ()
    ∧ (run_processing_loop [] (WaveWriter.open exampleFormat) true).closeCalled
      = false :=
  ⟨rfl, rfl⟩

/-- C3 (amended): close() is invoked exactly on the runs whose commit()
succeeds, after commit; when commit() returns an error, that error is
surfaced to the caller but close() is never attempted, so the scratch file
leaks. -/
theorem claim_C3_close_only_after_successful_commit
    (polls : List (Option AudioDataMessage)) (w0 : WaveWriter)
    (commitFails : Bool) :
    (run_processing_loop polls w0 commitFails).closeCalled = !commitFails
    ∧ (run_processing_loop polls w0 commitFails).result
        = (if commitFails then .error () else .ok ()) := by
  cases commitFails <;> exact ⟨rfl, rfl⟩

/-- A processing-loop writer with one injected write fault: the next
BufWriter write fails. -/
def faultyWriter : WaveWriter :=
  { WaveWriter.open exampleFormat with writeFaults := [true] }

/-- C4 counterexample: with one injected write failure, the first chunk's
write returns an error, yet run_processing_loop returns Ok and the second
chunk is still accepted and committed — the write error is silently
swallowed by the let-underscore binding and the loop keeps accepting
chunks. -/
theorem claim_C4_counterexample :
    (faultyWriter.write [1, 2]).2 = .error ()
    ∧ (run_processing_loop
        [some (AudioDataMessage.AudioData [1, 2]),
         some (AudioDataMessage.AudioData [3, 4])] faultyWriter false).result
        = .ok ()
    ∧ (run_processing_loop
        [some (AudioDataMessage.AudioData [1, 2]),
         some (AudioDataMessage.AudioData [3, 4])] faultyWriter false).dest
        = some (WaveFile.bytes [3, 4] exampleFormat) :=
  ⟨rfl, rfl, rfl⟩

/-- C4 (amended): an I/O failure returned by the Staging Writer's write()
during the processing loop is discarded, not surfaced: the loop body ignores
the write result together with the non-blocking polling result, continues
with the next poll, and the loop's return value is Ok whenever commit
succeeds, regardless of write failures. -/
theorem claim_C4_write_errors_discarded :
    (∀ (c : List Nat) (rest : List (Option AudioDataMessage)) (w : WaveWriter),
        w.writeFaults.headD false = true →
          (w.write c).2 = .error ()
          ∧ processMessages (some (AudioDataMessage.AudioData c) :: rest) w
              true
            = processMessages rest (w.write c).1 true)
    ∧ (∀ (polls : List (Option AudioDataMessage)) (w0 : WaveWriter),
        (run_processing_loop polls w0 false).result = .ok ()) := by
  constructor
  · intro c rest w h
    refine ⟨?_, rfl⟩
    unfold WaveWriter.write
    rw [if_pos h]
  · intro polls w0
    rfl

/-- Witness for C4 (amended) at the faulty writer and a concrete chunk. -/
theorem claim_C4_witness :
    ((faultyWriter.write [1, 2]).2 = .error ()
      ∧ processMessages [some (AudioDataMessage.AudioData [1, 2])] faultyWriter
          true
        = processMessages [] (faultyWriter.write [1, 2]).1 true)
    ∧ (run_processing_loop [] faultyWriter false).result = .ok () :=
  ⟨claim_C4_write_errors_discarded.1 [1, 2] [] faultyWriter rfl,
   claim_C4_write_errors_discarded.2 [] faultyWriter⟩

/-- C5 counterexample: if File::create and the header write_all succeed but
the payload write_all fails, WaveFile::write returns an error while the
destination holds exactly the 36 header bytes — a newly created file that is
neither the fully written file nor absent. -/
theorem claim_C5_counterexample :
    (WaveFile.write [1, 2, 3, 4] exampleFormat ⟨true, true, false⟩).1
      = .error ()
    ∧ (WaveFile.write [1, 2, 3, 4] exampleFormat ⟨true, true, false⟩).2
      = some (WaveHeader.bytes exampleFormat 4)
    ∧ WaveHeader.bytes exampleFormat 4 ≠ WaveFile.bytes [1, 2, 3, 4] exampleFormat
    ∧ (WaveHeader.bytes exampleFormat 4).length = 36 := by
  refine ⟨rfl, rfl, ?_, rfl⟩
  decide

/-- C5 (amended): WaveFile::write is all-or-nothing only on the create step:
when the destination file cannot be created, no file appears; but once the
file is created, a later failure can leave a strict prefix of the intended
file (the empty file or the bare 36-byte header) at the destination, and
only a fully successful run leaves the complete 44 + len(p) byte file. -/
theorem claim_C5_partial_file_on_failure (data : List Nat)
    (format : AudioFormatInfo) (env : WriteEnv) :
    ((WaveFile.write data format env).1 = .ok () →
      (WaveFile.write data format env).2 = some (WaveFile.bytes data format))
    ∧ ((WaveFile.write data format env).1 = .error () →
        (WaveFile.write data format env).2 = none
        ∨ ∃ k, k < (WaveFile.bytes data format).length
            ∧ (WaveFile.write data format env).2
                = some ((WaveFile.bytes data format).take k)) := by
  have hlen := waveFile_bytes_length data format
  rcases env with ⟨c, h, d⟩
  cases c with
  | false => exact ⟨fun hres => Except.noConfusion hres, fun _ => Or.inl rfl⟩
  | true =>
    cases h with
    | false =>
      refine ⟨fun hres => Except.noConfusion hres,
        fun _ => Or.inr ⟨0, ?_, rfl⟩⟩
      rw [hlen]; omega
    | true =>
      cases d with
      | false =>
        refine ⟨fun hres => Except.noConfusion hres,
          fun _ => Or.inr ⟨36, ?_, ?_⟩⟩
        · rw [hlen]; omega
        · rw [waveFile_bytes_take_36]; rfl
      | true => exact ⟨fun _ => rfl, fun hres => Except.noConfusion hres⟩

/-- Witness for C5 (amended): the concrete header-only partial file. -/
theorem claim_C5_witness :
    (WaveFile.write [1, 2, 3, 4] exampleFormat ⟨true, true, false⟩).2 = none
    ∨ ∃ k, k < (WaveFile.bytes [1, 2, 3, 4] exampleFormat).length
        ∧ (WaveFile.write [1, 2, 3, 4] exampleFormat ⟨true, true, false⟩).2
            = some ((WaveFile.bytes [1, 2, 3, 4] exampleFormat).take k) :=
  (claim_C5_partial_file_on_failure [1, 2, 3, 4] exampleFormat
    ⟨true, true, false⟩).2 rfl

/-- A format within the u32 and u8 ranges on which the u32 computation of
bytes_per_second overflows: 268435456 Hz (2 to the 28), one channel, Int32. -/
def overflowFormat : AudioFormatInfo :=
  { sample_rate := 268435456, num_channels := 1, format := .Int32 }

/-- C7 counterexample: overflowFormat is a valid format (sample_rate > 0,
num_channels > 0), yet bytes_per_second() returns 0 because the intermediate
u32 product 2 to the 33 wraps, while sample_rate * (bit_depth/8) *
channel_count is 1073741824. -/
theorem claim_C7_counterexample :
    0 < overflowFormat.sample_rate
    ∧ 0 < overflowFormat.num_channels
    ∧ overflowFormat.bytes_per_second = 0
    ∧ overflowFormat.sample_rate * (overflowFormat.bit_depth / 8)
        * overflowFormat.num_channels = 1073741824
    ∧ overflowFormat.bytes_per_second
        ≠ overflowFormat.sample_rate * (overflowFormat.bit_depth / 8)
            * overflowFormat.num_channels := by
  refine ⟨by decide, by decide, by decide, by decide, by decide⟩

/-- When the true product fits in u32, the wrapped computation agrees with
it. -/
theorem bytes_per_second_no_overflow (sr bd nc : Nat) (hnc : 0 < nc)
    (hlt : sr * bd * nc < 4294967296) :
    (sr * bd % 4294967296 * nc) % 4294967296 / 8 = sr * bd * nc / 8 := by
  have h1 : sr * bd ≤ sr * bd * nc := Nat.le_mul_of_pos_right _ hnc
  rw [Nat.mod_eq_of_lt (lt_of_le_of_lt h1 hlt), Nat.mod_eq_of_lt hlt]

/-- Dividing a product whose middle factor is a multiple of eight. -/
theorem mul_bit_div_eight (sr nc k : Nat) :
    sr * (8 * k) * nc / 8 = sr * k * nc := by
  rw [show sr * (8 * k) * nc = 8 * (sr * k * nc) by ring]
  exact Nat.mul_div_cancel_left _ (by norm_num)

/-- C7 (amended): for every AudioFormatInfo with sample_rate > 0 and
0 < num_channels < 256, block_alignment() always equals (bit_depth/8) *
channel_count; and bytes_per_second() equals sample_rate * (bit_depth/8) *
channel_count whenever the intermediate product sample_rate * bit_depth *
num_channels fits in u32 — for larger formats the u32 product wraps (see the
counterexample). -/
theorem claim_C7_derived_quantities (f : AudioFormatInfo)
    (hsr : 0 < f.sample_rate) (hnc : 0 < f.num_channels)
    (hnc8 : f.num_channels < 256) :
    f.block_alignment = f.bit_depth / 8 * f.num_channels
    ∧ (f.sample_rate * f.bit_depth * f.num_channels < 4294967296 →
        f.bytes_per_second
          = f.sample_rate * (f.bit_depth / 8) * f.num_channels) := by
  obtain ⟨sr, nc, sf⟩ := f
  simp only [AudioFormatInfo.block_alignment, AudioFormatInfo.bit_depth,
    AudioFormatInfo.bytes_per_second] at *
  constructor
  · cases sf <;> simp only [SampleFormat.bit_depth] <;> omega
  · intro hlt
    cases sf with
    | Int16 =>
      simp only [SampleFormat.bit_depth] at hlt ⊢
      rw [bytes_per_second_no_overflow sr 16 nc hnc hlt]
      exact mul_bit_div_eight sr nc 2
    | Int24 =>
      simp only [SampleFormat.bit_depth] at hlt ⊢
      rw [bytes_per_second_no_overflow sr 24 nc hnc hlt]
      exact mul_bit_div_eight sr nc 3
    | Int32 =>
      simp only [SampleFormat.bit_depth] at hlt ⊢
      rw [bytes_per_second_no_overflow sr 32 nc hnc hlt]
      exact mul_bit_div_eight sr nc 4
    | Float32 =>
      simp only [SampleFormat.bit_depth] at hlt ⊢
      rw [bytes_per_second_no_overflow sr 32 nc hnc hlt]
      exact mul_bit_div_eight sr nc 4

/-- Witness for C7 (amended) at the canonical 44100 Hz stereo Int16 format.
-/
theorem claim_C7_witness :
    exampleFormat.block_alignment
        = exampleFormat.bit_depth / 8 * exampleFormat.num_channels
    ∧ exampleFormat.bytes_per_second
        = exampleFormat.sample_rate * (exampleFormat.bit_depth / 8)
            * exampleFormat.num_channels :=
  ⟨(claim_C7_derived_quantities exampleFormat (by decide) (by decide)
      (by decide)).1,
   (claim_C7_derived_quantities exampleFormat (by decide) (by decide)
      (by decide)).2 (by decide)⟩

/-- C8: Committing the WaveWriter twice in a row without any intervening
write() calls produces byte-identical destination files both times: the
first commit flushes the buffer into the scratch file, the second commit
re-reads the same flushed scratch-file contents and serializes the same
header and data bytes again. -/
theorem claim_C8_commit_idempotent (w : WaveWriter) :
    ((w.commit).1.commit).2 = (w.commit).2
    ∧ ((w.commit).1).tmpFile = w.tmpFile ++ w.buffer
    ∧ ((w.commit).1).buffer = [] := by
  refine ⟨?_, rfl, rfl⟩
  simp [WaveWriter.commit]

end Wavrec
